import Mathlib

/-!
Verification of the notification manager and offline request queue of the
storefront front end (src/js/notifications.js, plus the storage helpers in
the utilities file).  The JavaScript classes `Notifications` and `API` are
shallowly embedded: the mutable instance state becomes explicit state
records, `Date.now()` and `Math.random()` become explicit parameters, the
platform primitives (`fetch`, `localStorage`, `JSON.parse`) become
explicit outcome parameters, and promise settlement becomes a returned
value.  All definitions follow the source line by line.
-/

/-! ## Notification manager: data model (class `Notifications`) -/

/-- Options bag accepted by `Notifications.show`.  `duration` is a JS value
that is either absent/undefined (`none`) or a number; the source combines
it with the default via `||`, so `0` is falsy. -/
structure NotifOptions where
  duration : Option Nat
  persistent : Bool
  action : Option String
deriving DecidableEq

/-- One toast, as built by `Notifications.show` (fields of the object
literal at notifications.js lines 48-56). -/
structure Notification where
  id : String
  message : String
  ntype : String
  timestamp : Nat
  duration : Nat
  persistent : Bool
  action : Option String
deriving DecidableEq

/-- The mutable state of the `Notifications` instance: the live
`this.notifications` array.  The DOM container is presentation only and out
of scope. -/
structure NotifState where
  notifications : List Notification
deriving DecidableEq

/-- JS `v || d` for an optional numeric option: undefined and 0 are falsy. -/
def jsOr (v : Option Nat) (d : Nat) : Nat :=
  match v with
  | some x => if x = 0 then d else x
  | none => d

/-- `Notifications.getDefaultDuration` (notifications.js 171-180). -/
def Notifications.getDefaultDuration (ty : String) : Nat :=
  if ty = "success" then 3000
  else if ty = "error" then 5000
  else if ty = "warning" then 4000
  else if ty = "info" then 3000
  else 3000

/-- `Notifications.generateId` (notifications.js 182-184):
`'notification-' + Date.now() + '-' + random suffix`.  The clock value and
the `Math.random` suffix are explicit inputs. -/
def Notifications.generateId (now : Nat) (rand : String) : String :=
  "notification-" ++ toString now ++ "-" ++ rand

/-- The notification object constructed by `Notifications.show`
(notifications.js 48-56). -/
def mkNotification (message ty : String) (opts : NotifOptions) (now : Nat)
    (rand : String) : Notification :=
  { id := Notifications.generateId now rand
    message := message
    ntype := ty
    timestamp := now
    duration := jsOr opts.duration (Notifications.getDefaultDuration ty)
    persistent := opts.persistent
    action := opts.action }

/-- `Notifications.show` (notifications.js 47-69): pushes the new
notification and returns its id.  (The auto-removal `setTimeout` it
schedules for non-persistent toasts is modelled as a separate trace event,
see `NEvent.timeoutEv`.) -/
def Notifications.showNotif (st : NotifState) (message ty : String)
    (opts : NotifOptions) (now : Nat) (rand : String) : NotifState × String :=
  let n := mkNotification message ty opts now rand
  ({ notifications := st.notifications ++ [n] }, n.id)

/-- `Notifications.remove` (notifications.js 118-137): looks the id up,
returns unchanged when unknown, otherwise filters the array. -/
def Notifications.remove (st : NotifState) (id : String) : NotifState :=
  match st.notifications.find? (fun n => n.id == id) with
  | none => st
  | some _ => { notifications := st.notifications.filter (fun n => n.id != id) }

/-- `Notifications.clear` (notifications.js 139-144): `forEach` over the
original array, removing each id (the array reference iterated over is the
one captured before the first reassignment). -/
def Notifications.clear (st : NotifState) : NotifState :=
  st.notifications.foldl (fun s nn => Notifications.remove s nn.id) st

/-- Loop body of `Notifications.cleanupExpired` (notifications.js 186-193):
`forEach` over the array captured at entry, removing every non-persistent
notification whose age reached its duration. -/
def Notifications.cleanupAux (now : Nat) :
    List Notification → NotifState → NotifState
  | [], st => st
  | m :: rest, st =>
      Notifications.cleanupAux now rest
        (if m.persistent = false ∧ m.duration ≤ now - m.timestamp
         then Notifications.remove st m.id else st)

/-- `Notifications.cleanupExpired` (notifications.js 186-193). -/
def Notifications.cleanupExpired (st : NotifState) (now : Nat) : NotifState :=
  Notifications.cleanupAux now st.notifications st

/-- `Notifications.success` (notifications.js 196-198). -/
def Notifications.success (st : NotifState) (m : String) (opts : NotifOptions)
    (now : Nat) (rand : String) : NotifState × String :=
  Notifications.showNotif st m "success" opts now rand

/-- `Notifications.error` (notifications.js 200-202). -/
def Notifications.error (st : NotifState) (m : String) (opts : NotifOptions)
    (now : Nat) (rand : String) : NotifState × String :=
  Notifications.showNotif st m "error" opts now rand

/-- `Notifications.warning` (notifications.js 204-206). -/
def Notifications.warning (st : NotifState) (m : String) (opts : NotifOptions)
    (now : Nat) (rand : String) : NotifState × String :=
  Notifications.showNotif st m "warning" opts now rand

/-- `Notifications.info` (notifications.js 208-210). -/
def Notifications.info (st : NotifState) (m : String) (opts : NotifOptions)
    (now : Nat) (rand : String) : NotifState × String :=
  Notifications.showNotif st m "info" opts now rand

/-- The identifiers of the live notifications. -/
def notifIds (st : NotifState) : List String :=
  st.notifications.map (fun n => n.id)

/-! ## Call sequences over the manager (for the identifier invariant) -/

/-- One public call to the manager: `show`, a typed wrapper, or `remove`.
Each creating call carries the `Date.now()` value and `Math.random` suffix
its internal `generateId` call observes. -/
inductive NCall where
  | showC (msg ty : String) (opts : NotifOptions) (now : Nat) (rand : String)
  | successC (msg : String) (opts : NotifOptions) (now : Nat) (rand : String)
  | errorC (msg : String) (opts : NotifOptions) (now : Nat) (rand : String)
  | warningC (msg : String) (opts : NotifOptions) (now : Nat) (rand : String)
  | infoC (msg : String) (opts : NotifOptions) (now : Nat) (rand : String)
  | removeC (id : String)
deriving DecidableEq

/-- Effect of one call on the manager state. -/
def stepCall (st : NotifState) : NCall → NotifState
  | .showC m ty o now rand => (Notifications.showNotif st m ty o now rand).1
  | .successC m o now rand => (Notifications.success st m o now rand).1
  | .errorC m o now rand => (Notifications.error st m o now rand).1
  | .warningC m o now rand => (Notifications.warning st m o now rand).1
  | .infoC m o now rand => (Notifications.info st m o now rand).1
  | .removeC id => Notifications.remove st id

/-- The identifier a creating call generates (`none` for `remove`). -/
def gidOf : NCall → Option String
  | .showC _ _ _ now rand => some (Notifications.generateId now rand)
  | .successC _ _ now rand => some (Notifications.generateId now rand)
  | .errorC _ _ now rand => some (Notifications.generateId now rand)
  | .warningC _ _ now rand => some (Notifications.generateId now rand)
  | .infoC _ _ now rand => some (Notifications.generateId now rand)
  | .removeC _ => none

/-- Run a sequence of calls. -/
def runCalls (st : NotifState) (calls : List NCall) : NotifState :=
  calls.foldl stepCall st

/-- The default (empty) options bag. -/
def defOpts : NotifOptions := { duration := none, persistent := false, action := none }

/-! ## Helper lemmas about `remove` and call sequences -/

theorem remove_of_find_none (st : NotifState) (i : String)
    (h : st.notifications.find? (fun n => n.id == i) = none) :
    Notifications.remove st i = st := by
  unfold Notifications.remove
  rw [h]

theorem remove_eq_filter (st : NotifState) (i : String) :
    (Notifications.remove st i).notifications
      = st.notifications.filter (fun n => n.id != i) := by
  unfold Notifications.remove
  cases hf : st.notifications.find? (fun n => n.id == i) with
  | none =>
      have hall := List.find?_eq_none.mp hf
      have : st.notifications.filter (fun n => n.id != i) = st.notifications := by
        apply List.filter_eq_self.mpr
        intro a ha
        have := hall a ha
        simp only [bne, Bool.not_eq_true'] at *
        simpa using this
      simp [this]
  | some n => rfl

theorem mem_remove_of_mem {st : NotifState} {n : Notification} {j : String}
    (hn : n ∈ st.notifications) (hne : n.id ≠ j) :
    n ∈ (Notifications.remove st j).notifications := by
  rw [remove_eq_filter]
  exact List.mem_filter.mpr ⟨hn, by simpa [bne] using hne⟩

theorem remove_subset {st : NotifState} {m : Notification} {j : String}
    (hm : m ∈ (Notifications.remove st j).notifications) :
    m ∈ st.notifications := by
  rw [remove_eq_filter] at hm
  exact (List.mem_filter.mp hm).1

theorem not_mem_ids_remove (st : NotifState) (j : String) :
    j ∉ notifIds (Notifications.remove st j) := by
  intro hmem
  rcases List.mem_map.mp hmem with ⟨m, hm, hid⟩
  rw [remove_eq_filter] at hm
  have := (List.mem_filter.mp hm).2
  simp [bne] at this
  exact this hid

theorem remove_ids_sublist (st : NotifState) (j : String) :
    (notifIds (Notifications.remove st j)).Sublist (notifIds st) := by
  rw [notifIds, notifIds, remove_eq_filter]
  exact (List.filter_sublist _).map _

/-- Key step lemma for the identifier invariant: a creating call appends
one notification carrying its generated id, `remove` only filters. -/
theorem stepCall_shape (st : NotifState) (c : NCall) :
    (∀ g, gidOf c = some g →
      ∃ n, (stepCall st c).notifications = st.notifications ++ [n] ∧ n.id = g)
    ∧ (gidOf c = none → ∃ j, stepCall st c = Notifications.remove st j) := by
  cases c <;>
    simp [stepCall, gidOf, Notifications.showNotif, Notifications.success,
      Notifications.error, Notifications.warning, Notifications.info,
      mkNotification]

theorem runCalls_nodup_aux (calls : List NCall) :
    ∀ st : NotifState, (notifIds st).Nodup →
    (∀ g ∈ calls.filterMap gidOf, g ∉ notifIds st) →
    (calls.filterMap gidOf).Nodup →
    (notifIds (runCalls st calls)).Nodup := by
  induction calls with
  | nil => intro st h _ _; simpa [runCalls] using h
  | cons c rest ih =>
      intro st hnd hfresh hgnd
      have hrun : runCalls st (c :: rest) = runCalls (stepCall st c) rest := rfl
      rw [hrun]
      cases hg : gidOf c with
      | some g =>
          rcases (stepCall_shape st c).1 g hg with ⟨n, hshape, hid⟩
          have hids : notifIds (stepCall st c) = notifIds st ++ [g] := by
            simp [notifIds, hshape, hid]
          have hgl : (c :: rest).filterMap gidOf = g :: rest.filterMap gidOf := by
            simp [List.filterMap_cons, hg]
          rw [hgl] at hfresh hgnd
          have hgfresh : g ∉ notifIds st := hfresh g (by simp)
          apply ih
          · rw [hids]
            exact List.nodup_append.mpr
              ⟨hnd, List.nodup_singleton g, by
                intro a ha hb
                simp at hb
                subst hb
                exact hgfresh ha⟩
          · intro g' hg'
            rw [hids]
            intro hmem
            rcases List.mem_append.mp hmem with h1 | h1
            · exact hfresh g' (by simp [hg']) h1
            · simp at h1
              subst h1
              exact (List.nodup_cons.mp hgnd).1 hg'
          · exact (List.nodup_cons.mp hgnd).2
      | none =>
          rcases (stepCall_shape st c).2 hg with ⟨j, hshape⟩
          have hgl : (c :: rest).filterMap gidOf = rest.filterMap gidOf := by
            simp [List.filterMap_cons, hg]
          rw [hgl] at hfresh hgnd
          rw [hshape]
          apply ih
          · exact hnd.sublist (remove_ids_sublist st j)
          · intro g' hg' hmem
            exact hfresh g' hg' ((remove_ids_sublist st j).subset hmem)
          · exact hgnd

/-! ## Claim C4 -/

/-- C4 fails as stated: the id generator is `Date.now()` plus a
`Math.random()` suffix and performs no collision check, so two `show`
calls that observe the same clock value and the same random suffix create
two live notifications with the same identifier. -/
theorem c4_counterexample :
    ¬ (notifIds (runCalls ⟨[]⟩
        [NCall.showC "a" "info" defOpts 1000 "abc",
         NCall.showC "b" "info" defOpts 1000 "abc"])).Nodup := by
  decide

/-- C4 (amended): provided the id-generator inputs of any two creating
calls differ — i.e. the generated identifiers are pairwise distinct — any
sequence of `show`/`success`/`error`/`warning`/`info`/`remove` calls keeps
the live collection free of duplicate identifiers (and an identifier is
never reused); moreover `remove` is idempotent and removing an unknown id
is a no-op, both unconditionally. -/
theorem c4_unique_ids_and_remove_idempotent :
    (∀ calls : List NCall, (calls.filterMap gidOf).Nodup →
      (notifIds (runCalls ⟨[]⟩ calls)).Nodup)
    ∧ (∀ (st : NotifState) (i : String),
        Notifications.remove (Notifications.remove st i) i
          = Notifications.remove st i)
    ∧ (∀ (st : NotifState) (i : String), i ∉ notifIds st →
        Notifications.remove st i = st) := by
  refine ⟨?_, ?_, ?_⟩
  · intro calls hnd
    exact runCalls_nodup_aux calls ⟨[]⟩ (by simp [notifIds])
      (by intro g _ hmem; simp [notifIds] at hmem) hnd
  · intro st i
    have hnone : (Notifications.remove st i).notifications.find?
        (fun n => n.id == i) = none := by
      apply List.find?_eq_none.mpr
      intro n hn hbeq
      have := not_mem_ids_remove st i
      exact this (List.mem_map.mpr ⟨n, hn, by simpa using hbeq⟩)
    exact remove_of_find_none _ i hnone
  · intro st i hni
    have hnone : st.notifications.find? (fun n => n.id == i) = none := by
      apply List.find?_eq_none.mpr
      intro n hn hbeq
      exact hni (List.mem_map.mpr ⟨n, hn, by simpa using hbeq⟩)
    exact remove_of_find_none st i hnone

/-- Witness for the amended C4 at concrete inputs. -/
theorem c4_unique_ids_witness :
    (notifIds (runCalls ⟨[]⟩
      [NCall.showC "a" "info" defOpts 1 "x",
       NCall.infoC "b" defOpts 2 "y",
       NCall.removeC "notification-1-x"])).Nodup
    ∧ Notifications.remove (Notifications.remove ⟨[]⟩ "z") "z"
        = Notifications.remove ⟨[]⟩ "z"
    ∧ Notifications.remove ⟨[]⟩ "z" = ⟨[]⟩ := by
  refine ⟨c4_unique_ids_and_remove_idempotent.1 _ (by decide),
    c4_unique_ids_and_remove_idempotent.2.1 ⟨[]⟩ "z",
    c4_unique_ids_and_remove_idempotent.2.2 ⟨[]⟩ "z" (by decide)⟩

/-! ## Claim C9 -/

/-- C9: the duration option is combined with the severity default via `||`
(notifications.js line 53), so a falsy duration — in particular `0` —
yields exactly the same notification as omitting the option, with the
severity's default duration. -/
theorem c9_zero_duration_is_default (st : NotifState) (m ty : String)
    (opts : NotifOptions) (now : Nat) (rand : String)
    (h : opts.duration = some 0) :
    Notifications.showNotif st m ty opts now rand
      = Notifications.showNotif st m ty
          { opts with duration := none } now rand
    ∧ (mkNotification m ty opts now rand).duration
        = Notifications.getDefaultDuration ty := by
  constructor
  · simp [Notifications.showNotif, mkNotification, jsOr, h]
  · simp [mkNotification, jsOr, h]

/-- Witness for C9 at concrete inputs. -/
theorem c9_zero_duration_witness :
    Notifications.showNotif ⟨[]⟩ "hello" "warning"
        { duration := some 0, persistent := false, action := none } 7 "r"
      = Notifications.showNotif ⟨[]⟩ "hello" "warning"
        { duration := none, persistent := false, action := none } 7 "r"
    ∧ (mkNotification "hello" "warning"
        { duration := some 0, persistent := false, action := none } 7 "r").duration
      = Notifications.getDefaultDuration "warning" :=
  c9_zero_duration_is_default ⟨[]⟩ "hello" "warning"
    { duration := some 0, persistent := false, action := none } 7 "r" rfl

/-! ## Claim C10 -/

/-- C10: `remove(id)` only filters the array by identifier: the result is
exactly the original list without the holders of `id`, so every other live
notification survives with all of its attributes (it is the very same
record) and in the same order. -/
theorem c10_remove_frame (st : NotifState) (i : String) :
    (Notifications.remove st i).notifications
        = st.notifications.filter (fun n => n.id != i)
    ∧ (∀ n ∈ st.notifications, n.id ≠ i →
        n ∈ (Notifications.remove st i).notifications) := by
  refine ⟨remove_eq_filter st i, ?_⟩
  intro n hn hne
  exact mem_remove_of_mem hn hne

/-- Witness for C10 at a concrete two-notification state. -/
theorem c10_remove_frame_witness :
    (Notifications.remove
        ⟨[⟨"a", "m1", "info", 0, 3000, false, none⟩,
          ⟨"b", "m2", "error", 1, 5000, true, none⟩]⟩ "a").notifications
      = [⟨"b", "m2", "error", 1, 5000, true, none⟩]
    ∧ (⟨"b", "m2", "error", 1, 5000, true, none⟩ : Notification)
        ∈ (Notifications.remove
            ⟨[⟨"a", "m1", "info", 0, 3000, false, none⟩,
              ⟨"b", "m2", "error", 1, 5000, true, none⟩]⟩ "a").notifications := by
  have h := c10_remove_frame
    ⟨[⟨"a", "m1", "info", 0, 3000, false, none⟩,
      ⟨"b", "m2", "error", 1, 5000, true, none⟩]⟩ "a"
  refine ⟨by rw [h.1]; decide, ?_⟩
  exact h.2 ⟨"b", "m2", "error", 1, 5000, true, none⟩ (by decide) (by decide)

/-! ## API client: data model (class `API`, notifications.js 426-1006) -/

/-- The error object built by `API.handleError`: message text plus the
HTTP status (`none` models a network failure's error, which carries no
`status` property). -/
structure ApiError where
  message : String
  status : Option Nat
deriving DecidableEq

/-- Per-call options passed to `API.request` (method/body are opaque to the
queueing logic; `queueOffline` is the per-call opt-out flag checked with
`!== false`). -/
structure ReqOptions where
  method : Option String
  body : Option String
  queueOffline : Option Bool
deriving DecidableEq

/-- The merged `config` object built at the top of `API.request`
(headers from `getAuthHeaders()` spread with the options). -/
structure ReqConfig where
  headers : List (String × String)
  method : Option String
  body : Option String
  queueOffline : Option Bool
deriving DecidableEq

/-- One buffered request (`API.queueRequest`, notifications.js 649-663):
endpoint, merged config and arrival timestamp; the pending promise handle
is implicit in the entry's position. -/
structure QueueEntry where
  endpoint : String
  config : ReqConfig
  timestamp : Nat
deriving DecidableEq

/-- Mutable state of the `API` instance relevant to the claims. -/
structure ApiState where
  isOnline : Bool
  authToken : Option String
  requestQueue : List QueueEntry
deriving DecidableEq

/-- What one `fetch` attempt did: the promise rejected (network failure)
or a response arrived with a status and body text. -/
inductive FetchOutcome where
  | networkFailure (msg : String)
  | httpResponse (status : Nat) (body : String)
deriving DecidableEq

/-- `Response.ok` of the fetch API: status in 200-299. -/
def statusOk (s : Nat) : Bool := decide (200 ≤ s) && decide (s < 300)

/-- How a `request` call settles from the caller's point of view:
resolved/rejected, or still pending because the request was buffered. -/
inductive RequestOutcome where
  | settled (r : Except ApiError String)
  | queuedPending

/-- `API.getAuthHeaders` (notifications.js 474-480). -/
def API.getAuthHeaders (st : ApiState) : List (String × String) :=
  [("Content-Type", "application/json"),
   ("X-Requested-With", "XMLHttpRequest")] ++
  (match st.authToken with
   | some t => [("Authorization", "Bearer " ++ t)]
   | none => [])

/-- The `config` object assembled by `API.request` (notifications.js
485-493). -/
def buildConfig (st : ApiState) (opts : ReqOptions) : ReqConfig :=
  { headers := API.getAuthHeaders st
    method := opts.method
    body := opts.body
    queueOffline := opts.queueOffline }

/-- The `TypeError` raised by the broken notification wiring: several
`API` methods guard on `typeof Notifications !== 'undefined'` — which
passes, because the class global is assigned at notifications.js 422 —
and then read a method off `this.notifications`, a property that is never
assigned on the `API` instance (main.js 43 wires the `Notifications`
instance onto the app object instead, and nothing in the repository sets
`API.notifications`).  The message text is engine-specific; what matters
is that this error carries no `status` property. -/
def notificationsUndefinedError : ApiError :=
  { message := "TypeError: undefined has no properties", status := none }

/-- `API.handleError` (notifications.js 576-615): builds an `Error`
carrying the response status, then switches on the status code.  In the
shipped composition (`notifGlobal = true`: the `Notifications` class
global exists, while `this.notifications` is undefined on the API
instance) the 401/403/429/500 handlers crash with a `TypeError` at their
`this.notifications.*` call, so that status-less `TypeError` — not the
constructed error — is what propagates out of
`throw await this.handleError(response)`; `handleUnauthorized` still
clears the stored credential first (`setAuthToken(null)` precedes the
crash; its redirect timer is never scheduled).  When the guard fails
(`notifGlobal = false`) the handlers are skipped (or complete) and the
constructed error is returned. -/
def API.handleError (notifGlobal : Bool) (st : ApiState) (status : Nat)
    (body : String) : ApiError × ApiState :=
  let e : ApiError := { message := body, status := some status }
  if status = 401 then
    let st1 := { st with authToken := none }
    if notifGlobal then (notificationsUndefinedError, st1) else (e, st1)
  else if status = 403 ∨ status = 429 ∨ status = 500 then
    if notifGlobal then (notificationsUndefinedError, st) else (e, st)
  else (e, st)

/-- `API.queueRequest` (notifications.js 649-663): the promise executor
pushes `{endpoint, config, resolve, reject, timestamp}` onto the buffer
and then runs the guarded notification call.  In the shipped composition
(`notifGlobal = true`) that call throws a `TypeError` inside the
executor, which rejects the returned promise immediately — the entry
stays in the buffer, but its promise is already settled.  Only when the
guard fails (`notifGlobal = false`) does the returned promise stay
pending. -/
def API.queueRequest (notifGlobal : Bool) (st : ApiState) (endpoint : String)
    (config : ReqConfig) (now : Nat) : RequestOutcome × ApiState :=
  let st1 := { st with requestQueue := st.requestQueue ++ [⟨endpoint, config, now⟩] }
  if notifGlobal then
    (RequestOutcome.settled (Except.error notificationsUndefinedError), st1)
  else (RequestOutcome.queuedPending, st1)

/-- `API.request` (notifications.js 483-518).  The `fetch` attempt's
outcome and `Date.now()` are explicit inputs; `notifGlobal` records
whether the `Notifications` class global is defined (`true` in the
shipped bundle).  A non-ok response makes the error propagating out of
`handleError` (the constructed status error, or the handler's
`TypeError`) be thrown inside the `try`; the `catch` hands the request to
`queueRequest` exactly when the connectivity flag is false and the caller
has not passed `queueOffline: false`; otherwise the caught error is
rethrown and the returned promise rejects with it. -/
def API.request (notifGlobal : Bool) (st : ApiState) (endpoint : String)
    (opts : ReqOptions) (fetchRes : FetchOutcome) (now : Nat) :
    RequestOutcome × ApiState :=
  let config := buildConfig st opts
  match fetchRes with
  | .httpResponse s body =>
      if statusOk s then (RequestOutcome.settled (Except.ok body), st)
      else
        let r := API.handleError notifGlobal st s body
        if !r.2.isOnline && (opts.queueOffline != some false) then
          API.queueRequest notifGlobal r.2 endpoint config now
        else (RequestOutcome.settled (Except.error r.1), r.2)
  | .networkFailure msg =>
      if !st.isOnline && (opts.queueOffline != some false) then
        API.queueRequest notifGlobal st endpoint config now
      else
        (RequestOutcome.settled (Except.error { message := msg, status := none }), st)

/-- The staleness error used by `API.processQueue`. -/
def expiredError : ApiError := { message := "Request expired", status := none }

/-- Loop body of `API.processQueue` (notifications.js 671-683) over the
snapshot: per entry, replay when younger than 5 minutes (invoking the
entry's `resolve`/`reject` with the replay's outcome, success or failure)
else invoke its `reject` with the staleness error.  Returns, in order,
the value each entry's `resolve`/`reject` is invoked with, and the list
of entries for which a network call was actually made.  (Whether these
invocations settle anything depends on the entry's promise still being
pending; in the shipped composition `queueRequest` already rejected it at
enqueue time, making them no-ops.) -/
def API.drainPass (now : Nat) (replay : QueueEntry → Except ApiError String) :
    List QueueEntry → List (QueueEntry × Except ApiError String) × List QueueEntry
  | [] => ([], [])
  | item :: rest =>
      let head : QueueEntry × Except ApiError String :=
        if now - item.timestamp < 5 * 60 * 1000 then (item, replay item)
        else (item, Except.error expiredError)
      let hcall : List QueueEntry :=
        if now - item.timestamp < 5 * 60 * 1000 then [item] else []
      let tail := API.drainPass now replay rest
      (head :: tail.1, hcall ++ tail.2)

/-- `API.processQueue` (notifications.js 665-684): early return when
offline or the buffer is empty; otherwise snapshot the buffer, clear it,
then drain the snapshot.  The loop never reads `this.requestQueue` again,
so entries pushed by `queueRequest` while the drain's awaits are in flight
(`enqueuedDuring`) simply form the next buffer.  Returns the new state,
the settlements and the replayed entries. -/
def API.processQueue (st : ApiState) (now : Nat)
    (replay : QueueEntry → Except ApiError String)
    (enqueuedDuring : List QueueEntry) :
    ApiState × List (QueueEntry × Except ApiError String) × List QueueEntry :=
  if !st.isOnline || st.requestQueue.isEmpty then (st, [], [])
  else
    let tail := API.drainPass now replay st.requestQueue
    ({ st with requestQueue := enqueuedDuring }, tail.1, tail.2)

/-- The `'online'` listener installed by `API.init` (notifications.js
441-447): set the connectivity flag and start a single drain pass.  (The
listener's own guarded `this.notifications.info` call then throws, but
that happens after `processQueue()` has been invoked and does not affect
the pass already under way.) -/
def API.goOnline (st : ApiState) (now : Nat)
    (replay : QueueEntry → Except ApiError String)
    (enqueuedDuring : List QueueEntry) :
    ApiState × List (QueueEntry × Except ApiError String) × List QueueEntry :=
  API.processQueue { st with isOnline := true } now replay enqueuedDuring

/-- `error.status >= 400 && error.status < 500` (notifications.js 892):
an error without a `status` property compares false. -/
def clientError (e : ApiError) : Bool :=
  match e.status with
  | some s => decide (400 ≤ s) && decide (s < 500)
  | none => false

/-- Loop of `API.withRetry` (notifications.js 882-904), by remaining
attempts; `i` is the 0-based attempt index.  Returns the final settlement,
the number of invocations of the operation made, and the delays awaited
between successive attempts (a delay is awaited only when another attempt
remains, i.e. `i < maxRetries - 1`). -/
def API.withRetryGo (op : Nat → Except ApiError String) (delay : Nat) :
    Nat → Nat → Option ApiError → Except ApiError String × Nat × List Nat
  | 0, _, lastErr =>
      (Except.error (lastErr.getD { message := "undefined", status := none }), 0, [])
  | r + 1, i, _ =>
      match op i with
      | Except.ok v => (Except.ok v, 1, [])
      | Except.error e =>
          if clientError e then (Except.error e, 1, [])
          else
            let tail := API.withRetryGo op delay r (i + 1) (some e)
            (tail.1, tail.2.1 + 1, (if 0 < r then [delay * 2 ^ i] else []) ++ tail.2.2)

/-- `API.withRetry(fn, maxRetries, delay)` (notifications.js 882-904),
with the operation modelled as a function from the invocation index to
that invocation's outcome. -/
def API.withRetry (op : Nat → Except ApiError String) (maxRetries delay : Nat) :
    Except ApiError String × Nat × List Nat :=
  API.withRetryGo op delay maxRetries 0 none

/-! ## Claims C1-C3: offline queueing and drain -/

/-- C1 is a code bug: with the connectivity flag false and no
`queueOffline: false` opt-out, a failed underlying call does append
`{endpoint, config, arrivalTime}` to the request buffer, but in the
shipped composition (`notifGlobal = true`: the `Notifications` class
global is defined while `this.notifications` is undefined on the API
instance) the `TypeError` thrown inside `queueRequest`'s promise executor
rejects the caller's promise immediately with a status-less error — it
does not remain pending, refuting the claim.  The claimed behavior is
exactly what the same code computes when the guarded notification call is
skipped (`notifGlobal = false`): the promise stays pending, and
`processQueue` — the only code that settles buffered entries — leaves
the buffer untouched and settles nothing while the flag is false. -/
theorem c1_offline_pending_code_bug (st : ApiState) (endpoint : String)
    (opts : ReqOptions) (msg : String) (now : Nat)
    (hoff : st.isOnline = false) (hopt : opts.queueOffline ≠ some false) :
    ((API.request true st endpoint opts (FetchOutcome.networkFailure msg) now).1
        = RequestOutcome.settled (Except.error notificationsUndefinedError)
    ∧ (API.request true st endpoint opts (FetchOutcome.networkFailure msg) now).2.requestQueue
        = st.requestQueue ++ [⟨endpoint, buildConfig st opts, now⟩])
    ∧ ((API.request false st endpoint opts (FetchOutcome.networkFailure msg) now).1
        = RequestOutcome.queuedPending
    ∧ (API.request false st endpoint opts (FetchOutcome.networkFailure msg) now).2.requestQueue
        = st.requestQueue ++ [⟨endpoint, buildConfig st opts, now⟩]
    ∧ (∀ (now2 : Nat) (replay : QueueEntry → Except ApiError String),
        API.processQueue
            (API.request false st endpoint opts (FetchOutcome.networkFailure msg) now).2
            now2 replay []
          = ((API.request false st endpoint opts (FetchOutcome.networkFailure msg) now).2,
             [], []))) := by
  have hqo : (opts.queueOffline != some false) = true := by
    cases h : opts.queueOffline with
    | none => rfl
    | some b =>
        cases b with
        | false => exact absurd h hopt
        | true => rfl
  refine ⟨⟨?_, ?_⟩, ?_, ?_, ?_⟩
  · simp [API.request, API.queueRequest, hoff, hqo]
  · simp [API.request, API.queueRequest, hoff, hqo]
  · simp [API.request, API.queueRequest, hoff, hqo]
  · simp [API.request, API.queueRequest, hoff, hqo]
  · intro now2 replay
    simp [API.request, API.queueRequest, hoff, hqo, API.processQueue]

/-- Witness for C1's code-bug theorem at concrete inputs. -/
theorem c1_offline_pending_witness :
    (API.request true ⟨false, none, []⟩ "/cart/items" ⟨some "POST", none, none⟩
        (FetchOutcome.networkFailure "Failed to fetch") 50).1
      = RequestOutcome.settled (Except.error notificationsUndefinedError)
    ∧ (API.request true ⟨false, none, []⟩ "/cart/items" ⟨some "POST", none, none⟩
        (FetchOutcome.networkFailure "Failed to fetch") 50).2.requestQueue
      = [⟨"/cart/items",
          buildConfig ⟨false, none, []⟩ ⟨some "POST", none, none⟩, 50⟩]
    ∧ (API.request false ⟨false, none, []⟩ "/cart/items" ⟨some "POST", none, none⟩
        (FetchOutcome.networkFailure "Failed to fetch") 50).1
      = RequestOutcome.queuedPending
    ∧ API.processQueue
        (API.request false ⟨false, none, []⟩ "/cart/items" ⟨some "POST", none, none⟩
          (FetchOutcome.networkFailure "Failed to fetch") 50).2
        99 (fun _ => Except.ok "later") []
      = ((API.request false ⟨false, none, []⟩ "/cart/items" ⟨some "POST", none, none⟩
          (FetchOutcome.networkFailure "Failed to fetch") 50).2, [], []) := by
  have h := c1_offline_pending_code_bug ⟨false, none, []⟩ "/cart/items"
    ⟨some "POST", none, none⟩ "Failed to fetch" 50 rfl (by simp)
  exact ⟨h.1.1, h.1.2, h.2.1, h.2.2.2 99 (fun _ => Except.ok "later")⟩

/-- C2 fails as stated, on the shipped composition: a 404 response
arriving while the connectivity flag is false is caught by the offline
path, so the request IS placed in the offline buffer, and the caller's
promise rejects with the status-less `TypeError` from `queueRequest`'s
executor rather than with the 404 error. -/
theorem c2_counterexample :
    (API.request true ⟨false, none, []⟩ "/x" ⟨none, none, none⟩
        (FetchOutcome.httpResponse 404 "not found") 5).1
      = RequestOutcome.settled (Except.error notificationsUndefinedError)
    ∧ (API.request true ⟨false, none, []⟩ "/x" ⟨none, none, none⟩
        (FetchOutcome.httpResponse 404 "not found") 5).2.requestQueue ≠ [] := by
  exact ⟨rfl, by decide⟩

/-- C2 (amended): on the shipped composition a 4xx/5xx response always
rejects the caller's promise immediately — it is never left pending — but
which error rejects it and whether the request is buffered depend on the
state: (i) when the connectivity flag is true or `queueOffline: false`
was passed, and the status is none of 401/403/429/500, the promise
rejects with the `handleError` error carrying that status and the buffer
is untouched; (ii) for 401/403/429/500 under the same flag condition, the
status handler's `this.notifications` call throws first, so the promise
rejects with the status-less `TypeError` instead (for 401 the stored
credential is still cleared first) and the buffer is untouched; (iii)
when the flag is false and no opt-out is given, the request IS appended
to the offline buffer and the promise rejects immediately with the
`TypeError` thrown inside `queueRequest`'s executor. -/
theorem c2_http_error_immediate_rejection :
    (∀ (st : ApiState) (endpoint : String) (opts : ReqOptions) (s : Nat)
        (body : String) (now : Nat),
      400 ≤ s → s < 600 → s ≠ 401 → s ≠ 403 → s ≠ 429 → s ≠ 500 →
      (st.isOnline = true ∨ opts.queueOffline = some false) →
      (API.request true st endpoint opts (FetchOutcome.httpResponse s body) now).1
          = RequestOutcome.settled (Except.error ⟨body, some s⟩)
      ∧ (API.request true st endpoint opts (FetchOutcome.httpResponse s body) now).2.requestQueue
          = st.requestQueue)
    ∧ (∀ (st : ApiState) (endpoint : String) (opts : ReqOptions) (s : Nat)
        (body : String) (now : Nat),
      (s = 401 ∨ s = 403 ∨ s = 429 ∨ s = 500) →
      (st.isOnline = true ∨ opts.queueOffline = some false) →
      (API.request true st endpoint opts (FetchOutcome.httpResponse s body) now).1
          = RequestOutcome.settled (Except.error notificationsUndefinedError)
      ∧ (API.request true st endpoint opts (FetchOutcome.httpResponse s body) now).2.requestQueue
          = st.requestQueue
      ∧ (s = 401 →
          (API.request true st endpoint opts (FetchOutcome.httpResponse s body) now).2.authToken
            = none))
    ∧ (∀ (st : ApiState) (endpoint : String) (opts : ReqOptions) (s : Nat)
        (body : String) (now : Nat),
      400 ≤ s → s < 600 → st.isOnline = false → opts.queueOffline ≠ some false →
      (API.request true st endpoint opts (FetchOutcome.httpResponse s body) now).1
          = RequestOutcome.settled (Except.error notificationsUndefinedError)
      ∧ (API.request true st endpoint opts (FetchOutcome.httpResponse s body) now).2.requestQueue
          = st.requestQueue ++ [⟨endpoint, buildConfig st opts, now⟩]) := by
  refine ⟨?_, ?_, ?_⟩
  · intro st endpoint opts s body now h4 h6 h401 h403 h429 h500 hcase
    have hno : ¬(200 ≤ s ∧ s < 300) := by omega
    rcases hcase with hon | hopt
    · constructor <;>
        simp [API.request, API.handleError, statusOk, hno, h401, h403, h429,
          h500, hon]
    · constructor <;>
        simp [API.request, API.handleError, statusOk, hno, h401, h403, h429,
          h500, hopt]
  · intro st endpoint opts s body now hs hcase
    have hno : ¬(200 ≤ s ∧ s < 300) := by
      rcases hs with h | h | h | h <;> omega
    rcases hcase with hon | hopt
    · rcases hs with h | h | h | h <;> subst h <;>
        refine ⟨?_, ?_, ?_⟩ <;>
          simp [API.request, API.handleError, statusOk, hno, hon]
    · rcases hs with h | h | h | h <;> subst h <;>
        refine ⟨?_, ?_, ?_⟩ <;>
          simp [API.request, API.handleError, statusOk, hno, hopt]
  · intro st endpoint opts s body now h4 h6 hoff hopt
    have hno : ¬(200 ≤ s ∧ s < 300) := by omega
    have hqo : (opts.queueOffline != some false) = true := by
      cases h : opts.queueOffline with
      | none => rfl
      | some b =>
          cases b with
          | false => exact absurd h hopt
          | true => rfl
    by_cases h401 : s = 401
    · constructor <;>
        simp [API.request, API.handleError, API.queueRequest, statusOk, hno,
          h401, hoff, hqo]
    · by_cases hrest : s = 403 ∨ s = 429 ∨ s = 500
      · constructor <;>
          simp [API.request, API.handleError, API.queueRequest, statusOk, hno,
            h401, hrest, hoff, hqo]
      · constructor <;>
          simp [API.request, API.handleError, API.queueRequest, statusOk, hno,
            h401, hrest, hoff, hqo]

/-- Witness for the amended C2: a plain 404 while online rejects with the
status error; a 401 while online rejects with the `TypeError` and clears
the token; a 500 while offline is buffered and rejects with the
`TypeError`. -/
theorem c2_http_error_witness :
    (API.request true ⟨true, some "tok", []⟩ "/x" ⟨none, none, none⟩
        (FetchOutcome.httpResponse 404 "not found") 5).1
      = RequestOutcome.settled (Except.error ⟨"not found", some 404⟩)
    ∧ (API.request true ⟨true, some "tok", []⟩ "/x" ⟨none, none, none⟩
        (FetchOutcome.httpResponse 404 "not found") 5).2.requestQueue = []
    ∧ (API.request true ⟨true, some "tok", []⟩ "/x" ⟨none, none, none⟩
        (FetchOutcome.httpResponse 401 "expired") 5).1
      = RequestOutcome.settled (Except.error notificationsUndefinedError)
    ∧ (API.request true ⟨true, some "tok", []⟩ "/x" ⟨none, none, none⟩
        (FetchOutcome.httpResponse 401 "expired") 5).2.authToken = none
    ∧ (API.request true ⟨false, none, []⟩ "/x" ⟨none, none, none⟩
        (FetchOutcome.httpResponse 500 "boom") 5).1
      = RequestOutcome.settled (Except.error notificationsUndefinedError)
    ∧ (API.request true ⟨false, none, []⟩ "/x" ⟨none, none, none⟩
        (FetchOutcome.httpResponse 500 "boom") 5).2.requestQueue
      = [⟨"/x", buildConfig ⟨false, none, []⟩ ⟨none, none, none⟩, 5⟩] := by
  have h1 := c2_http_error_immediate_rejection.1 ⟨true, some "tok", []⟩ "/x"
    ⟨none, none, none⟩ 404 "not found" 5 (by decide) (by decide) (by decide)
    (by decide) (by decide) (by decide) (Or.inl rfl)
  have h2 := c2_http_error_immediate_rejection.2.1 ⟨true, some "tok", []⟩ "/x"
    ⟨none, none, none⟩ 401 "expired" 5 (Or.inl rfl) (Or.inl rfl)
  have h3 := c2_http_error_immediate_rejection.2.2 ⟨false, none, []⟩ "/x"
    ⟨none, none, none⟩ 500 "boom" 5 (by decide) (by decide) rfl (by simp)
  exact ⟨h1.1, h1.2, h2.1, h2.2.2 rfl, h3.1, h3.2⟩

theorem drainPass_eq (now : Nat) (replay : QueueEntry → Except ApiError String) :
    ∀ l : List QueueEntry,
      API.drainPass now replay l
        = (l.map (fun e => (e,
              if now - e.timestamp < 5 * 60 * 1000 then replay e
              else Except.error expiredError)),
           l.filter (fun e => decide (now - e.timestamp < 5 * 60 * 1000))) := by
  intro l
  induction l with
  | nil => rfl
  | cons item rest ih =>
      by_cases hfresh : now - item.timestamp < 5 * 60 * 1000 <;>
        simp [API.drainPass, ih, hfresh]

/-- C3 is a code bug: the drain mechanics are as claimed — the `'online'`
listener starts exactly one `processQueue` pass (its own broken
notification call throws only after `processQueue()` has been invoked);
the pass snapshots the buffer, clears it, walks the snapshot in FIFO
arrival order, invokes `reject` with the staleness error on every entry
at least 5 minutes old without any network call, replays every younger
entry exactly once and invokes its `resolve`/`reject` with that replay's
outcome, and entries enqueued during the drain form the next buffer,
untouched by the pass.  But in the shipped composition every buffered
entry's promise was already rejected with the `TypeError` from
`queueRequest`'s executor at enqueue time (first conjunct), so all those
`resolve`/`reject` invocations hit settled promises and are no-ops: no
caller observes the staleness rejection or the replay's outcome. -/
theorem c3_drain_mechanics_code_bug :
    (∀ (st : ApiState) (endpoint : String) (config : ReqConfig) (now : Nat),
      (API.queueRequest true st endpoint config now).1
          = RequestOutcome.settled (Except.error notificationsUndefinedError)
      ∧ (API.queueRequest true st endpoint config now).2.requestQueue
          = st.requestQueue ++ [⟨endpoint, config, now⟩])
    ∧ (∀ (st : ApiState) (now : Nat)
        (replay : QueueEntry → Except ApiError String)
        (enqueuedDuring : List QueueEntry), st.requestQueue ≠ [] →
      (API.goOnline st now replay enqueuedDuring).2.1
          = st.requestQueue.map (fun e => (e,
              if now - e.timestamp < 5 * 60 * 1000 then replay e
              else Except.error expiredError))
      ∧ (API.goOnline st now replay enqueuedDuring).2.2
          = st.requestQueue.filter
              (fun e => decide (now - e.timestamp < 5 * 60 * 1000))
      ∧ (API.goOnline st now replay enqueuedDuring).1.requestQueue
          = enqueuedDuring
      ∧ (API.goOnline st now replay enqueuedDuring).1.isOnline = true) := by
  constructor
  · intro st endpoint config now
    constructor <;> simp [API.queueRequest]
  · intro st now replay enqueuedDuring hne
    have hemp : st.requestQueue.isEmpty = false := by
      cases h : st.requestQueue with
      | nil => exact absurd h hne
      | cons a l => rfl
    refine ⟨?_, ?_, ?_, ?_⟩ <;>
      simp [API.goOnline, API.processQueue, hemp, drainPass_eq]

/-- Witness for C3's code-bug theorem: an entry enqueued offline is
already rejected, and the drain at time 600000 over one stale and one
fresh entry produces the claimed FIFO invocation list. -/
theorem c3_drain_witness :
    (API.queueRequest true ⟨false, none, []⟩ "/cart/items"
        ⟨[], none, none, none⟩ 0).1
      = RequestOutcome.settled (Except.error notificationsUndefinedError)
    ∧ (API.goOnline ⟨false, none,
        [⟨"/old", ⟨[], none, none, none⟩, 0⟩,
         ⟨"/new", ⟨[], none, none, none⟩, 500000⟩]⟩ 600000
        (fun e => Except.ok e.endpoint) [⟨"/later", ⟨[], none, none, none⟩, 600001⟩]).2.1
      = [(⟨"/old", ⟨[], none, none, none⟩, 0⟩, Except.error expiredError),
         (⟨"/new", ⟨[], none, none, none⟩, 500000⟩, Except.ok "/new")]
    ∧ (API.goOnline ⟨false, none,
        [⟨"/old", ⟨[], none, none, none⟩, 0⟩,
         ⟨"/new", ⟨[], none, none, none⟩, 500000⟩]⟩ 600000
        (fun e => Except.ok e.endpoint) [⟨"/later", ⟨[], none, none, none⟩, 600001⟩]).2.2
      = [⟨"/new", ⟨[], none, none, none⟩, 500000⟩]
    ∧ (API.goOnline ⟨false, none,
        [⟨"/old", ⟨[], none, none, none⟩, 0⟩,
         ⟨"/new", ⟨[], none, none, none⟩, 500000⟩]⟩ 600000
        (fun e => Except.ok e.endpoint) [⟨"/later", ⟨[], none, none, none⟩, 600001⟩]).1.requestQueue
      = [⟨"/later", ⟨[], none, none, none⟩, 600001⟩] := by
  have h0 := (c3_drain_mechanics_code_bug.1 ⟨false, none, []⟩ "/cart/items"
    ⟨[], none, none, none⟩ 0).1
  have h := c3_drain_mechanics_code_bug.2 ⟨false, none,
    [⟨"/old", ⟨[], none, none, none⟩, 0⟩,
     ⟨"/new", ⟨[], none, none, none⟩, 500000⟩]⟩ 600000
    (fun e => Except.ok e.endpoint) [⟨"/later", ⟨[], none, none, none⟩, 600001⟩]
    (by decide)
  refine ⟨h0, ?_, ?_, h.2.2.1⟩
  · rw [h.1]; rfl
  · rw [h.2.1]; rfl

/-! ## Claim C5: `withRetry` -/

/-- C5: `withRetry` never retries a failure carrying a 4xx status — an
operation that always fails with such a status (e.g. 404) is invoked
exactly once, no delay is awaited and the error is rethrown — while an
operation that fails twice with a 503 and then succeeds is invoked exactly
three times, the awaited delays are `baseDelay * 2^0` and
`baseDelay * 2^1`, and the success value is returned. -/
theorem c5_withRetry_backoff :
    (∀ (op : Nat → Except ApiError String) (maxRetries delay : Nat)
        (e : ApiError) (s : Nat),
      (∀ i, op i = Except.error e) → e.status = some s → 400 ≤ s → s < 500 →
      1 ≤ maxRetries →
      API.withRetry op maxRetries delay = (Except.error e, 1, []))
    ∧ (∀ (op : Nat → Except ApiError String) (maxRetries delay : Nat)
        (e : ApiError) (v : String),
      op 0 = Except.error e → op 1 = Except.error e → op 2 = Except.ok v →
      e.status = some 503 → 3 ≤ maxRetries →
      API.withRetry op maxRetries delay
        = (Except.ok v, 3, [delay * 2 ^ 0, delay * 2 ^ 1])) := by
  constructor
  · intro op maxRetries delay e s hop hst h4 h5 hmax
    obtain ⟨r, rfl⟩ : ∃ r, maxRetries = r + 1 := ⟨maxRetries - 1, by omega⟩
    have hce : clientError e = true := by
      simp [clientError, hst, h4, h5]
    simp [API.withRetry, API.withRetryGo, hop 0, hce]
  · intro op maxRetries delay e v hop0 hop1 hop2 hst hmax
    obtain ⟨r, rfl⟩ : ∃ r, maxRetries = r + 1 + 1 + 1 := ⟨maxRetries - 3, by omega⟩
    have hce : clientError e = false := by
      simp [clientError, hst]
    simp [API.withRetry, API.withRetryGo, hop0, hop1, hop2, hce]

/-- Witness for C5 at two concrete operations. -/
theorem c5_withRetry_witness :
    API.withRetry (fun _ => Except.error ⟨"not found", some 404⟩) 3 1000
      = (Except.error ⟨"not found", some 404⟩, 1, [])
    ∧ API.withRetry
        (fun i => if i < 2 then Except.error ⟨"unavailable", some 503⟩
                  else Except.ok "done") 3 1000
      = (Except.ok "done", 3, [1000 * 2 ^ 0, 1000 * 2 ^ 1]) := by
  constructor
  · exact c5_withRetry_backoff.1 (fun _ => Except.error ⟨"not found", some 404⟩)
      3 1000 ⟨"not found", some 404⟩ 404 (fun _ => rfl) rfl (by decide) (by decide)
      (by decide)
  · exact c5_withRetry_backoff.2
      (fun i => if i < 2 then Except.error ⟨"unavailable", some 503⟩
                else Except.ok "done") 3 1000 ⟨"unavailable", some 503⟩ "done"
      rfl rfl rfl rfl (by decide)

/-! ## Utility storage helpers (`Utils`, utilities file lines 292-352) -/

/-- The browser environment the accessors run against: `localStorage`
primitives and `JSON.parse`/`JSON.stringify`, each of which may throw
(modelled as `Except`); `getItem` yields `none` for a missing key. -/
structure JsEnv (α : Type) where
  jsonParse : String → Except String α
  jsonStringify : α → Except String String
  getItem : String → Except String (Option String)
  setItem : String → String → Except String Unit
  removeItem : String → Except String Unit

/-- `Utils.parseJSON` (utilities 292-299): `JSON.parse` in a `try`,
returning the caller-supplied fallback when parsing throws. -/
def Utils.parseJSON {α : Type} (env : JsEnv α) (s : String) (fallback : α) : α :=
  match env.jsonParse s with
  | Except.ok v => v
  | Except.error _ => fallback

/-- `Utils.stringifyJSON` (utilities 302-309). -/
def Utils.stringifyJSON {α : Type} (env : JsEnv α) (v : α) (fallback : String) :
    String :=
  match env.jsonStringify v with
  | Except.ok s => s
  | Except.error _ => fallback

/-- `Utils.storage.get` (utilities 323-331): `getItem` in a `try`; a throw
returns the fallback; a missing key or empty string (both falsy) returns
the fallback; otherwise the value is parsed with `parseJSON`, which itself
falls back on malformed JSON. -/
def Utils.storage.get {α : Type} (env : JsEnv α) (key : String) (fallback : α) :
    α :=
  match env.getItem key with
  | Except.error _ => fallback
  | Except.ok none => fallback
  | Except.ok (some s) =>
      if s = "" then fallback else Utils.parseJSON env s fallback

/-- `Utils.storage.set` (utilities 313-321): stringify (with its own
internal fallback), then `setItem` in a `try`; a throw returns `false`. -/
def Utils.storage.set {α : Type} (env : JsEnv α) (key : String) (value : α) :
    Bool :=
  match env.setItem key (Utils.stringifyJSON env value "\x7b\x7d") with
  | Except.ok _ => true
  | Except.error _ => false

/-- `Utils.storage.remove` (utilities 333-341). -/
def Utils.storage.remove {α : Type} (env : JsEnv α) (key : String) : Bool :=
  match env.removeItem key with
  | Except.ok _ => true
  | Except.error _ => false

/-! ## Claim C8 -/

/-- C8: the storage accessors catch every failure of the underlying store
at the accessor boundary — the embedding is total, so no exception ever
propagates — and specifically: a throwing `getItem` makes `get` return
the caller's fallback, so does a missing key, and so does a stored value
that `JSON.parse` rejects (malformed JSON); a throwing `setItem` or
`removeItem` makes `set`/`remove` return `false`. -/
theorem c8_storage_never_throws (α : Type) (env : JsEnv α) (key : String)
    (fallback value : α) :
    (∀ msg, env.getItem key = Except.error msg →
      Utils.storage.get env key fallback = fallback)
    ∧ (env.getItem key = Except.ok none →
      Utils.storage.get env key fallback = fallback)
    ∧ (∀ s pe, env.getItem key = Except.ok (some s) →
        env.jsonParse s = Except.error pe →
        Utils.storage.get env key fallback = fallback)
    ∧ (∀ msg, env.setItem key (Utils.stringifyJSON env value "\x7b\x7d")
          = Except.error msg →
        Utils.storage.set env key value = false)
    ∧ (∀ msg, env.removeItem key = Except.error msg →
      Utils.storage.remove env key = false) := by
  refine ⟨?_, ?_, ?_, ?_, ?_⟩
  · intro msg h
    simp [Utils.storage.get, h]
  · intro h
    simp [Utils.storage.get, h]
  · intro s pe hg hp
    by_cases hs : s = "" <;>
      simp [Utils.storage.get, Utils.parseJSON, hg, hp, hs]
  · intro msg h
    simp [Utils.storage.set, h]
  · intro msg h
    simp [Utils.storage.remove, h]

/-- Witness for C8: a disabled store (every primitive throws) and a store
holding corrupt JSON, at concrete keys. -/
theorem c8_storage_witness :
    Utils.storage.get
        (⟨fun _ => Except.error "parse", fun _ => Except.error "stringify",
          fun _ => Except.error "disabled", fun _ _ => Except.error "quota",
          fun _ => Except.error "disabled"⟩ : JsEnv Nat) "authToken" 7 = 7
    ∧ Utils.storage.set
        (⟨fun _ => Except.error "parse", fun _ => Except.error "stringify",
          fun _ => Except.error "disabled", fun _ _ => Except.error "quota",
          fun _ => Except.error "disabled"⟩ : JsEnv Nat) "authToken" 9 = false
    ∧ Utils.storage.remove
        (⟨fun _ => Except.error "parse", fun _ => Except.error "stringify",
          fun _ => Except.error "disabled", fun _ _ => Except.error "quota",
          fun _ => Except.error "disabled"⟩ : JsEnv Nat) "authToken" = false
    ∧ Utils.storage.get
        (⟨fun _ => Except.error "unexpected token", fun v => Except.ok (toString v),
          fun _ => Except.ok (some "corrupt json"), fun _ _ => Except.ok (),
          fun _ => Except.ok ()⟩ : JsEnv Nat) "recentSearches" 7 = 7 := by
  refine ⟨?_, ?_, ?_, ?_⟩
  · exact (c8_storage_never_throws Nat _ "authToken" 7 7).1 "disabled" rfl
  · exact (c8_storage_never_throws Nat _ "authToken" 7 9).2.2.2.1 "quota" rfl
  · exact (c8_storage_never_throws Nat _ "authToken" 7 7).2.2.2.2 "disabled" rfl
  · exact (c8_storage_never_throws Nat _ "recentSearches" 7 7).2.2.1
      "corrupt json" "unexpected token" rfl rfl

/-! ## Sequential notification queue (`showQueued`/`processQueue`,
notifications.js 355-387) -/

/-- One `showQueued` call's payload: the arguments pushed onto
`this.queue`, plus a caller-side tag identifying the returned promise and
the `Math.random` suffix the eventual `show` call will observe. -/
structure QItem where
  tag : Nat
  msg : String
  ty : String
  opts : NotifOptions
  rand : String
deriving DecidableEq

/-- One display performed by `processQueue`: which item (by tag), the id
`show` returned, the time `show` ran, and the `timeout` used for the
pacing timer. -/
structure DisplayRec where
  tag : Nat
  id : String
  showTime : Nat
  dur : Nat
deriving DecidableEq

/-- State of the queue machinery: the manager state, `this.queue`,
`this.isProcessing`, the single outstanding pacing `setTimeout`
(fire time, tag and id captured by its closure), plus observation logs of
the displays made and the promise resolutions performed. -/
structure QueueState where
  ns : NotifState
  queue : List QItem
  isProcessing : Bool
  timer : Option (Nat × Nat × String)
  displays : List DisplayRec
  resolutions : List (Nat × Nat × String)
deriving DecidableEq

/-- `options.duration || this.getDefaultDuration(type)` (notifications.js
381), identical to the duration `show` assigns. -/
def timeoutOf (it : QItem) : Nat :=
  jsOr it.opts.duration (Notifications.getDefaultDuration it.ty)

/-- `Notifications.processQueue` (notifications.js 369-387): when the
queue is empty, clear `isProcessing` and stop; otherwise set
`isProcessing`, shift the head, `show` it, and schedule the pacing timer
`timeout + 300` ms ahead, whose callback resolves the head's promise with
the shown id and recurses. -/
def processQueueOp (st : QueueState) (now : Nat) : QueueState :=
  match st.queue with
  | [] => { st with isProcessing := false }
  | it :: rest =>
      let res := Notifications.showNotif st.ns it.msg it.ty it.opts now it.rand
      { st with
        ns := res.1
        queue := rest
        isProcessing := true
        timer := some (now + timeoutOf it + 300, it.tag, res.2)
        displays := st.displays ++ [⟨it.tag, res.2, now, timeoutOf it⟩] }

/-- `Notifications.showQueued` (notifications.js 359-367): push the item;
if nothing is being processed, start `processQueue` synchronously. -/
def showQueuedOp (st : QueueState) (it : QItem) (now : Nat) : QueueState :=
  let st1 := { st with queue := st.queue ++ [it] }
  if st1.isProcessing then st1 else processQueueOp st1 now

/-- The pacing timer fires (the `setTimeout` callback at notifications.js
383-386): resolve the pending promise with the shown id, then run
`processQueue` again at the fire time. -/
def fireTimerOp (st : QueueState) : QueueState :=
  match st.timer with
  | none => st
  | some (t, tag, gid) =>
      processQueueOp
        { st with
          timer := none
          resolutions := st.resolutions ++ [(t, tag, gid)] } t

/-- Run the event loop until the pacing timer chain dies out (fuelled; at
most one pacing timer is ever outstanding). -/
def fireAll : Nat → QueueState → QueueState
  | 0, st => st
  | k + 1, st =>
      match st.timer with
      | none => st
      | some _ => fireAll k (fireTimerOp st)

/-- Fresh manager: empty queue, nothing processing (class fields at
notifications.js 356-357). -/
def initQ : QueueState := ⟨⟨[]⟩, [], false, none, [], []⟩

/-- Enqueue a burst of `showQueued` calls at time `t0` (all made before
the first pacing timer fires, i.e. while the queue is busy). -/
def enqueueAll (st : QueueState) (items : List QItem) (t0 : Nat) : QueueState :=
  items.foldl (fun s it => showQueuedOp s it t0) st

/-- The complete scenario: burst-enqueue, then let the timer chain run to
completion. -/
def runQueued (items : List QItem) (t0 : Nat) : QueueState :=
  fireAll (items.length + 1) (enqueueAll initQ items t0)

/-- Expected display schedule: strict FIFO, each display `duration + 300`
after the previous one started. -/
def expDisplays : List QItem → Nat → List DisplayRec
  | [], _ => []
  | it :: rest, t =>
      ⟨it.tag, Notifications.generateId t it.rand, t, timeoutOf it⟩
        :: expDisplays rest (t + timeoutOf it + 300)

/-- Expected promise resolutions: each promise resolves with its display's
id when that display's window (duration + animation delay) elapses. -/
def expResolutions (ds : List DisplayRec) : List (Nat × Nat × String) :=
  ds.map (fun d => (d.showTime + d.dur + 300, d.tag, d.id))

theorem fireAll_none (k : Nat) (st : QueueState) (h : st.timer = none) :
    fireAll k st = st := by
  cases k <;> simp [fireAll, h]

theorem fireAll_steady (rest : List QItem) :
    ∀ (fuel : Nat) (st : QueueState) (T tag : Nat) (gid : String),
      st.timer = some (T, tag, gid) → st.queue = rest →
      rest.length + 1 ≤ fuel →
      ((fireAll fuel st).displays = st.displays ++ expDisplays rest T
      ∧ (fireAll fuel st).resolutions
          = st.resolutions ++ (T, tag, gid) :: expResolutions (expDisplays rest T)
      ∧ (fireAll fuel st).queue = []
      ∧ (fireAll fuel st).timer = none
      ∧ (fireAll fuel st).isProcessing = false) := by
  induction rest with
  | nil =>
      intro fuel st T tag gid ht hq hf
      obtain ⟨f, rfl⟩ : ∃ f, fuel = f + 1 := ⟨fuel - 1, by omega⟩
      have hstep : fireTimerOp st
          = { st with
              timer := none
              resolutions := st.resolutions ++ [(T, tag, gid)]
              isProcessing := false } := by
        simp [fireTimerOp, ht, processQueueOp, hq]
      simp only [fireAll, ht]
      rw [hstep, fireAll_none f _ rfl]
      simp [expDisplays, expResolutions, hq]
  | cons it rest' ih =>
      intro fuel st T tag gid ht hq hf
      obtain ⟨f, rfl⟩ : ∃ f, fuel = f + 1 := ⟨fuel - 1, by omega⟩
      have h1 : (fireTimerOp st).timer
          = some (T + timeoutOf it + 300, it.tag,
              Notifications.generateId T it.rand) := by
        simp [fireTimerOp, ht, processQueueOp, hq, Notifications.showNotif,
          mkNotification]
      have h2 : (fireTimerOp st).queue = rest' := by
        simp [fireTimerOp, ht, processQueueOp, hq]
      have h3 : (fireTimerOp st).displays
          = st.displays
              ++ [⟨it.tag, Notifications.generateId T it.rand, T, timeoutOf it⟩] := by
        simp [fireTimerOp, ht, processQueueOp, hq, Notifications.showNotif,
          mkNotification]
      have h4 : (fireTimerOp st).resolutions
          = st.resolutions ++ [(T, tag, gid)] := by
        simp [fireTimerOp, ht, processQueueOp, hq]
      have hf' : rest'.length + 1 ≤ f := by
        simp only [List.length_cons] at hf
        omega
      obtain ⟨d1, d2, d3, d4, d5⟩ := ih f (fireTimerOp st) _ _ _ h1 h2 hf'
      simp only [fireAll, ht]
      refine ⟨?_, ?_, d3, d4, d5⟩
      · rw [d1, h3]
        simp [expDisplays]
      · rw [d2, h4]
        simp [expDisplays, expResolutions]

theorem enqueue_pushes (rest : List QItem) :
    ∀ (st : QueueState) (t0 : Nat), st.isProcessing = true →
      ((enqueueAll st rest t0).ns = st.ns
      ∧ (enqueueAll st rest t0).queue = st.queue ++ rest
      ∧ (enqueueAll st rest t0).isProcessing = true
      ∧ (enqueueAll st rest t0).timer = st.timer
      ∧ (enqueueAll st rest t0).displays = st.displays
      ∧ (enqueueAll st rest t0).resolutions = st.resolutions) := by
  induction rest with
  | nil => intro st t0 h; simp [enqueueAll, h]
  | cons it rest' ih =>
      intro st t0 h
      have hstep : showQueuedOp st it t0 = { st with queue := st.queue ++ [it] } := by
        simp [showQueuedOp, h]
      have hrun : enqueueAll st (it :: rest') t0
          = enqueueAll (showQueuedOp st it t0) rest' t0 := rfl
      rw [hrun, hstep]
      obtain ⟨e1, e2, e3, e4, e5, e6⟩ := ih { st with queue := st.queue ++ [it] } t0 h
      exact ⟨e1, by rw [e2]; simp, e3, e4, e5, e6⟩

theorem expDisplays_map_tag (items : List QItem) :
    ∀ t : Nat, (expDisplays items t).map (fun d => d.tag)
      = items.map (fun it => it.tag) := by
  induction items with
  | nil => intro t; rfl
  | cons it rest ih => intro t; simp [expDisplays, ih]

theorem expDisplays_showTime_ge (items : List QItem) :
    ∀ (t : Nat) (d : DisplayRec), d ∈ expDisplays items t → t ≤ d.showTime := by
  induction items with
  | nil => intro t d h; simp [expDisplays] at h
  | cons it rest ih =>
      intro t d h
      rcases (List.mem_cons).mp h with h1 | h1
      · subst h1; rfl
      · have := ih (t + timeoutOf it + 300) d h1
        omega

theorem expDisplays_pairwise (items : List QItem) :
    ∀ t : Nat, List.Pairwise (fun a b => a.showTime + a.dur < b.showTime)
      (expDisplays items t) := by
  induction items with
  | nil => intro t; simp [expDisplays]
  | cons it rest ih =>
      intro t
      refine List.Pairwise.cons ?_ (ih (t + timeoutOf it + 300))
      intro d hd
      have := expDisplays_showTime_ge rest (t + timeoutOf it + 300) d hd
      simp only []
      omega

/-- C6: a burst of `showQueued` calls (all enqueued while the queue is
busy) is displayed in exactly the enqueue order; each display starts
precisely `duration + 300` ms after the previous one started, hence the
display windows `[showTime, showTime + duration]` are pairwise disjoint —
at most one queued notification is active at any instant; each call's
promise resolves with its displayed notification's id exactly when its
display window plus the 300 ms animation delay elapses; and the run ends
with an empty queue and `isProcessing` cleared. -/
theorem c6_sequential_queue_fifo (items : List QItem) (t0 : Nat) :
    (runQueued items t0).displays = expDisplays items t0
    ∧ (runQueued items t0).resolutions = expResolutions (expDisplays items t0)
    ∧ (runQueued items t0).displays.map (fun d => d.tag)
        = items.map (fun it => it.tag)
    ∧ List.Pairwise (fun a b => a.showTime + a.dur < b.showTime)
        (runQueued items t0).displays
    ∧ (runQueued items t0).queue = []
    ∧ (runQueued items t0).isProcessing = false := by
  cases items with
  | nil =>
      refine ⟨?_, ?_, ?_, ?_, ?_, ?_⟩ <;>
        simp [runQueued, enqueueAll, fireAll, initQ, expDisplays, expResolutions]
  | cons it rest =>
      have ha1 : (showQueuedOp initQ it t0).timer
          = some (t0 + timeoutOf it + 300, it.tag,
              Notifications.generateId t0 it.rand) := by
        simp [showQueuedOp, initQ, processQueueOp, Notifications.showNotif,
          mkNotification]
      have ha2 : (showQueuedOp initQ it t0).queue = [] := by
        simp [showQueuedOp, initQ, processQueueOp]
      have ha3 : (showQueuedOp initQ it t0).isProcessing = true := by
        simp [showQueuedOp, initQ, processQueueOp]
      have ha4 : (showQueuedOp initQ it t0).displays
          = [⟨it.tag, Notifications.generateId t0 it.rand, t0, timeoutOf it⟩] := by
        simp [showQueuedOp, initQ, processQueueOp, Notifications.showNotif,
          mkNotification]
      have ha5 : (showQueuedOp initQ it t0).resolutions = [] := by
        simp [showQueuedOp, initQ, processQueueOp]
      have hrun : enqueueAll initQ (it :: rest) t0
          = enqueueAll (showQueuedOp initQ it t0) rest t0 := rfl
      obtain ⟨e1, e2, e3, e4, e5, e6⟩ :=
        enqueue_pushes rest (showQueuedOp initQ it t0) t0 ha3
      have hbq : (enqueueAll (showQueuedOp initQ it t0) rest t0).queue = rest := by
        rw [e2, ha2]; rfl
      have hbt : (enqueueAll (showQueuedOp initQ it t0) rest t0).timer
          = some (t0 + timeoutOf it + 300, it.tag,
              Notifications.generateId t0 it.rand) := by rw [e4, ha1]
      obtain ⟨d1, d2, d3, d4, d5⟩ := fireAll_steady rest
        ((it :: rest).length + 1) (enqueueAll (showQueuedOp initQ it t0) rest t0)
        _ _ _ hbt hbq (by simp)
      have hdisp : (runQueued (it :: rest) t0).displays
          = expDisplays (it :: rest) t0 := by
        rw [runQueued, hrun] at *
        rw [d1, e5, ha4]
        simp [expDisplays]
      refine ⟨hdisp, ?_, ?_, ?_, ?_, ?_⟩
      · rw [runQueued, hrun] at *
        rw [d2, e6, ha5]
        simp [expDisplays, expResolutions]
      · rw [hdisp, expDisplays_map_tag]
      · rw [hdisp]
        exact expDisplays_pairwise (it :: rest) t0
      · rw [runQueued, hrun] at *
        exact d3
      · rw [runQueued, hrun] at *
        exact d5

/-! ## Timed traces over the manager (expiry sweep and persistence) -/

/-- One event hitting the manager: a `show` call (carrying the random
suffix its `generateId` observes), an explicit `remove`, a `clear`, one
tick of the 1000 ms expiry sweep (`setInterval` at notifications.js
42-44), or the firing of a non-persistent notification's auto-removal
`setTimeout` (notifications.js 62-66, whose callback is `remove` on the
captured id; `show` schedules it only when the notification is not
persistent). -/
inductive NEvent where
  | showEv (msg ty : String) (opts : NotifOptions) (rand : String)
  | removeEv (id : String)
  | clearEv
  | sweepEv
  | timeoutEv (id : String)
deriving DecidableEq

/-- Effect of one timestamped event. -/
def stepN (st : NotifState) (t : Nat) (e : NEvent) : NotifState :=
  match e with
  | .showEv m ty o rand => (Notifications.showNotif st m ty o t rand).1
  | .removeEv i => Notifications.remove st i
  | .clearEv => Notifications.clear st
  | .sweepEv => Notifications.cleanupExpired st t
  | .timeoutEv i => Notifications.remove st i

/-- Run a timestamped trace. -/
def runN (st : NotifState) (tr : List (Nat × NEvent)) : NotifState :=
  tr.foldl (fun s p => stepN s p.1 p.2) st

/-- Does this event create a notification with identifier `i`? -/
def producesId (i : String) (p : Nat × NEvent) : Bool :=
  match p.2 with
  | .showEv _ _ _ rand => Notifications.generateId p.1 rand == i
  | _ => false

/-- Does this event create, explicitly remove, clear, or auto-remove the
notification with identifier `i`?  (The sweep never touches a persistent
notification, and the source schedules no auto-removal timeout for one.) -/
def touchesId (i : String) (p : Nat × NEvent) : Bool :=
  match p.2 with
  | .showEv _ _ _ rand => Notifications.generateId p.1 rand == i
  | .removeEv j => j == i
  | .clearEv => true
  | .sweepEv => false
  | .timeoutEv j => j == i

theorem runN_append (st : NotifState) (a b : List (Nat × NEvent)) :
    runN st (a ++ b) = runN (runN st a) b := by
  simp [runN, List.foldl_append]

theorem foldl_remove_subset (l : List Notification) :
    ∀ (acc : NotifState) (m : Notification),
      m ∈ (l.foldl (fun s nn => Notifications.remove s nn.id) acc).notifications →
      m ∈ acc.notifications := by
  induction l with
  | nil => intro acc m h; exact h
  | cons nn rest ih =>
      intro acc m h
      exact remove_subset (ih (Notifications.remove acc nn.id) m h)

theorem clear_subset {st : NotifState} {m : Notification}
    (h : m ∈ (Notifications.clear st).notifications) : m ∈ st.notifications :=
  foldl_remove_subset st.notifications st m h

theorem cleanupAux_subset (now : Nat) (l : List Notification) :
    ∀ (acc : NotifState) (m : Notification),
      m ∈ (Notifications.cleanupAux now l acc).notifications →
      m ∈ acc.notifications := by
  induction l with
  | nil => intro acc m h; exact h
  | cons nn rest ih =>
      intro acc m h
      have h2 := ih _ m h
      by_cases hg : nn.persistent = false ∧ nn.duration ≤ now - nn.timestamp
      · rw [if_pos hg] at h2
        exact remove_subset h2
      · rwa [if_neg hg] at h2

theorem notMem_cleanupAux {now : Nat} {l : List Notification}
    {acc : NotifState} {i : String} (h : i ∉ notifIds acc) :
    i ∉ notifIds (Notifications.cleanupAux now l acc) := by
  intro habs
  rcases List.mem_map.mp habs with ⟨m, hm, hid⟩
  exact h (List.mem_map.mpr ⟨m, cleanupAux_subset now l acc m hm, hid⟩)

theorem cleanupAux_kills (now : Nat) (l : List Notification) :
    ∀ (acc : NotifState) (n : Notification),
      n ∈ l → n.persistent = false → n.duration ≤ now - n.timestamp →
      n.id ∉ notifIds (Notifications.cleanupAux now l acc) := by
  induction l with
  | nil => intro acc n hn; exact absurd hn (List.not_mem_nil n)
  | cons m rest ih =>
      intro acc n hn hp hd
      rcases List.mem_cons.mp hn with heq | hmem
      · subst heq
        show n.id ∉ notifIds (Notifications.cleanupAux now rest _)
        rw [if_pos ⟨hp, hd⟩]
        exact notMem_cleanupAux (not_mem_ids_remove acc n.id)
      · exact ih _ n hmem hp hd

theorem cleanupAux_keeps (now : Nat) (l : List Notification) :
    ∀ (acc : NotifState) (n : Notification),
      n ∈ acc.notifications → n.persistent = true →
      (∀ m ∈ l, m.id = n.id → m.persistent = true) →
      n ∈ (Notifications.cleanupAux now l acc).notifications := by
  induction l with
  | nil => intro acc n hn _ _; exact hn
  | cons m rest ih =>
      intro acc n hn hp hl
      by_cases hg : m.persistent = false ∧ m.duration ≤ now - m.timestamp
      · have hmn : m.id ≠ n.id := by
          intro heq
          have := hl m (List.mem_cons_self m rest) heq
          rw [this] at hg
          exact absurd hg.1 (by simp)
        show n ∈ (Notifications.cleanupAux now rest _).notifications
        rw [if_pos hg]
        exact ih _ n (mem_remove_of_mem hn (fun h => hmn h.symm)) hp
          (fun m' hm' => hl m' (List.mem_cons_of_mem m hm'))
      · show n ∈ (Notifications.cleanupAux now rest _).notifications
        rw [if_neg hg]
        exact ih _ n hn hp (fun m' hm' => hl m' (List.mem_cons_of_mem m hm'))

theorem step_holders {st : NotifState} {t : Nat} {e : NEvent} {m : Notification}
    {i : String} (hprod : producesId i (t, e) = false)
    (hm : m ∈ (stepN st t e).notifications) (hid : m.id = i) :
    m ∈ st.notifications := by
  cases e with
  | showEv msg ty o rand =>
      simp only [stepN, Notifications.showNotif] at hm
      rcases List.mem_append.mp hm with h1 | h1
      · exact h1
      · exfalso
        simp only [List.mem_singleton] at h1
        subst h1
        simp only [producesId, mkNotification] at hprod hid
        rw [hid] at hprod
        simp at hprod
  | removeEv j => exact remove_subset hm
  | clearEv => exact clear_subset hm
  | sweepEv => exact cleanupAux_subset t st.notifications st m hm
  | timeoutEv j => exact remove_subset hm

theorem run_holders (tr : List (Nat × NEvent)) :
    ∀ (st : NotifState) (i : String),
      tr.all (fun p => !producesId i p) = true →
      ∀ m ∈ (runN st tr).notifications, m.id = i → m ∈ st.notifications := by
  induction tr with
  | nil => intro st i _ m hm _; exact hm
  | cons p rest ih =>
      intro st i hall m hm hid
      rw [List.all_cons, Bool.and_eq_true] at hall
      have hprod : producesId i p = false := by
        have := hall.1
        simpa using this
      have hm2 := ih (stepN st p.1 p.2) i hall.2 m hm hid
      exact step_holders (by cases p; exact hprod) hm2 hid

theorem notMem_run {tr : List (Nat × NEvent)} {st : NotifState} {i : String}
    (hni : i ∉ notifIds st) (hall : tr.all (fun p => !producesId i p) = true) :
    i ∉ notifIds (runN st tr) := by
  intro habs
  rcases List.mem_map.mp habs with ⟨m, hm, hid⟩
  exact hni (List.mem_map.mpr ⟨m, run_holders tr st i hall m hm hid, hid⟩)

theorem run_keeps_persistent (tr : List (Nat × NEvent)) :
    ∀ (st : NotifState) (n : Notification),
      n ∈ st.notifications → n.persistent = true →
      (∀ m ∈ st.notifications, m.id = n.id → m = n) →
      tr.all (fun p => !touchesId n.id p) = true →
      n ∈ (runN st tr).notifications := by
  induction tr with
  | nil => intro st n hn _ _ _; exact hn
  | cons p rest ih =>
      intro st n hn hp huniq hall
      rw [List.all_cons, Bool.and_eq_true] at hall
      have htouch : touchesId n.id p = false := by
        have := hall.1
        simpa using this
      obtain ⟨t, e⟩ := p
      cases e with
      | showEv msg ty o rand =>
          have hne : Notifications.generateId t rand ≠ n.id := by
            simpa [touchesId] using htouch
          refine ih _ n ?_ hp ?_ hall.2
          · simp only [runN, stepN, Notifications.showNotif]
            exact List.mem_append_left _ hn
          · intro m hm hid
            simp only [stepN, Notifications.showNotif] at hm
            rcases List.mem_append.mp hm with h1 | h1
            · exact huniq m h1 hid
            · exfalso
              simp only [List.mem_singleton] at h1
              subst h1
              exact hne (by simpa [mkNotification] using hid)
      | removeEv j =>
          have hne : j ≠ n.id := by simpa [touchesId] using htouch
          refine ih _ n (mem_remove_of_mem hn (fun h => hne h.symm)) hp
            (fun m hm hid => huniq m (remove_subset hm) hid) hall.2
      | clearEv => simp [touchesId] at htouch
      | sweepEv =>
          refine ih _ n ?_ hp ?_ hall.2
          · show n ∈ (Notifications.cleanupExpired st t).notifications
            exact cleanupAux_keeps t st.notifications st n hn hp
              (fun m hm hid => by rw [huniq m hm hid]; exact hp)
          · intro m hm hid
            exact huniq m (cleanupAux_subset t st.notifications st m hm) hid
      | timeoutEv j =>
          have hne : j ≠ n.id := by simpa [touchesId] using htouch
          refine ih _ n (mem_remove_of_mem hn (fun h => hne h.symm)) hp
            (fun m hm hid => huniq m (remove_subset hm) hid) hall.2

/-! ## Claim C7 -/

/-- C7: (1) a non-persistent notification (unique holder of its id, never
re-created) is no longer live at any observation time `T` at least
`duration + 1000` ms past its creation: the 1000 ms-periodic sweep has a
tick in the window `[timestamp + duration, T]`, and that tick removes the
notification (or it is already gone), after which it never returns; (2) a
persistent notification is never removed by a sweep tick, and since the
source schedules no auto-removal timeout for persistent notifications, it
stays live verbatim (same record, all attributes intact) until a trace
containing an explicit `remove` of its id or a `clear` — any trace free of
those leaves it live. -/
theorem c7_expiry_sweep_and_persistence :
    (∀ (st : NotifState) (n : Notification) (tr : List (Nat × NEvent)) (s0 T : Nat),
      n ∈ st.notifications → n.persistent = false →
      (∀ m ∈ st.notifications, m.id = n.id → m = n) →
      tr.all (fun p => !producesId n.id p) = true →
      (∀ k : Nat, s0 + 1000 * k ≤ T → (s0 + 1000 * k, NEvent.sweepEv) ∈ tr) →
      s0 ≤ n.timestamp + n.duration →
      n.timestamp + n.duration + 1000 ≤ T →
      n.id ∉ notifIds (runN st tr))
    ∧ (∀ (st : NotifState) (n : Notification) (tr : List (Nat × NEvent)),
      n ∈ st.notifications → n.persistent = true →
      (∀ m ∈ st.notifications, m.id = n.id → m = n) →
      tr.all (fun p => !touchesId n.id p) = true →
      n ∈ (runN st tr).notifications) := by
  constructor
  · intro st n tr s0 T hn hpers huniq hprod hper hs0 hT
    have hk : ∃ k, n.timestamp + n.duration ≤ s0 + 1000 * k
        ∧ s0 + 1000 * k ≤ T := by
      refine ⟨(n.timestamp + n.duration - s0 + 999) / 1000, ?_, ?_⟩ <;> omega
    obtain ⟨k, hk1, hk2⟩ := hk
    obtain ⟨tr1, tr2, rfl⟩ := List.append_of_mem (hper k hk2)
    rw [List.all_append, Bool.and_eq_true, List.all_cons, Bool.and_eq_true]
      at hprod
    obtain ⟨hp1, _, hp2⟩ := hprod
    rw [runN_append]
    have hmid : n.id ∉ notifIds
        (runN (runN st tr1) [(s0 + 1000 * k, NEvent.sweepEv)]) := by
      show n.id ∉ notifIds
        (Notifications.cleanupAux (s0 + 1000 * k)
          (runN st tr1).notifications (runN st tr1))
      by_cases hcase : n ∈ (runN st tr1).notifications
      · exact cleanupAux_kills (s0 + 1000 * k) (runN st tr1).notifications
          (runN st tr1) n hcase hpers (by omega)
      · apply notMem_cleanupAux
        intro habs
        rcases List.mem_map.mp habs with ⟨m, hm, hid⟩
        have hmst := run_holders tr1 st n.id hp1 m hm hid
        have hmn : m = n := huniq m hmst hid
        exact hcase (hmn ▸ hm)
    have hstep : runN (runN st tr1) ((s0 + 1000 * k, NEvent.sweepEv) :: tr2)
        = runN (runN (runN st tr1) [(s0 + 1000 * k, NEvent.sweepEv)]) tr2 := rfl
    rw [hstep]
    exact notMem_run hmid hp2
  · intro st n tr hn hp huniq hall
    exact run_keeps_persistent tr st n hn hp huniq hall

/-- Witness for C7: a non-persistent 3000 ms toast created at time 0 is
gone by time 4000 under the periodic sweep, and a persistent one survives
a late sweep and an unrelated removal. -/
theorem c7_expiry_sweep_witness :
    "i1" ∉ notifIds (runN ⟨[⟨"i1", "m", "info", 0, 3000, false, none⟩]⟩
        [(0, NEvent.sweepEv), (1000, NEvent.sweepEv), (2000, NEvent.sweepEv),
         (3000, NEvent.sweepEv), (4000, NEvent.sweepEv)])
    ∧ (⟨"p1", "m", "info", 0, 3000, true, none⟩ : Notification)
        ∈ (runN ⟨[⟨"p1", "m", "info", 0, 3000, true, none⟩]⟩
            [(5000, NEvent.sweepEv), (6000, NEvent.removeEv "other")]).notifications := by
  constructor
  · exact c7_expiry_sweep_and_persistence.1
      ⟨[⟨"i1", "m", "info", 0, 3000, false, none⟩]⟩
      ⟨"i1", "m", "info", 0, 3000, false, none⟩
      [(0, NEvent.sweepEv), (1000, NEvent.sweepEv), (2000, NEvent.sweepEv),
       (3000, NEvent.sweepEv), (4000, NEvent.sweepEv)] 0 4000
      (by decide) rfl (by decide) (by decide)
      (fun k hk => by
        have hk4 : k ≤ 4 := by omega
        interval_cases k <;> decide)
      (by decide) (by decide)
  · exact c7_expiry_sweep_and_persistence.2
      ⟨[⟨"p1", "m", "info", 0, 3000, true, none⟩]⟩
      ⟨"p1", "m", "info", 0, 3000, true, none⟩
      [(5000, NEvent.sweepEv), (6000, NEvent.removeEv "other")]
      (by decide) rfl (by decide) (by decide)
